import Mathlib

/-!
Verification of the grade resolution engine in
`lms/djangoapps/grades/new/course_grade_factory.py` (class `CourseGradeFactory`).

The factory itself is embedded directly from the source.  Its collaborators
(`CourseData`, `CourseGrade`, `ZeroCourseGrade`, `PersistentCourseGrade`,
`VisibleBlocks`, the config predicates and the signals) live in modules of the
repository that are not part of the provided sources, so they are modelled
from the specification's data model (CourseContext, ResolvedGrade, ZeroGrade,
StoredGrade, GradeStore, NotificationSink, policy predicates); each such
definition is marked `Modelled from the spec:` in its doc comment.

Side effects (store upserts, signal emissions, cache invalidation, calculator
invocations) are made explicit as an event list returned alongside each
result, so that "no write happened" / "a notification was emitted exactly
once" become statements about that list.
-/

/-- Modelled from the spec: `CourseContext` (the `CourseData` class of
`course_data.py`, absent from the sources): identifying and versioning
metadata for a (learner, course) pair — course key, content version, edit
timestamp, grading-policy hash — plus the course's deadline (`course.end`,
which `_update` reads off the resolved course object).  Constructed fresh per
resolution call and never mutated. -/
structure CourseData where
  course_key : Nat
  version : Nat
  edited_on : Nat
  grading_policy_hash : Nat
  course_end : Option Nat
  deriving DecidableEq, Repr

/-- Modelled from the spec: `ResolvedGrade` (the `CourseGrade` class of
`course_grade.py`, absent from the sources): percent, letter grade, tri-state
passed (true / false / not yet determined), and the attempted flag. -/
structure CourseGrade where
  percent : Int
  letter_grade : String
  passed : Option Bool
  attempted : Bool
  deriving DecidableEq, Repr

/-- Modelled from the spec: `StoredGrade` as held by the `GradeStore`
(`PersistentCourseGrade` of `models.py`, absent from the sources): the
last-persisted grade together with the policy hash it was computed under and
the nullable passed timestamp. -/
structure PersistentCourseGradeRec where
  percent_grade : Int
  letter_grade : String
  passed_timestamp : Option Nat
  grading_policy_hash : Nat
  deriving DecidableEq, Repr

/-- The error raised by the grade calculator collaborator (`CourseGrade.update`
in the source); in `iter` it is caught per learner, in single-resolution calls
it propagates. -/
structure GradeError where
  msg : String
  deriving DecidableEq, Repr

/-- `PersistentCourseGrade.DoesNotExist`: the store read found no row (also
raised by `_read` itself when persistence is disabled for the course). -/
inductive ReadErr where
  | doesNotExist
  deriving DecidableEq, Repr

/-- Arguments of `PersistentCourseGrade.update_or_create` exactly as `_update`
passes them (source lines 184–193). -/
structure UpsertArgs where
  user_id : Nat
  course_id : Nat
  course_version : Nat
  course_edited_timestamp : Nat
  grading_policy_hash : Nat
  percent_grade : Int
  letter_grade : String
  passed : Option Bool
  deriving DecidableEq, Repr

/-- Observable side effects of the factory: store writes, the two signals
(`COURSE_GRADE_CHANGED`, `COURSE_GRADE_NOW_PASSED`), the course-scoped cache
invalidation (`VisibleBlocks.clear_cache`), and grade-calculator invocations
(`CourseGrade(user, course_data)` followed by `course_grade.update()`). -/
inductive Event where
  | storeUpsert (args : UpsertArgs)
  | gradeChanged (user_id : Nat) (grade : CourseGrade) (deadline : Option Nat)
  | nowPassed (user_id : Nat)
  | clearCache (course_key : Nat)
  | calcInvoked (user_id : Nat)
  deriving DecidableEq, Repr

/-- The factory's collaborators: the config predicates
(`assume_zero_if_absent`, `should_persist_grades`, the `WRITE_ONLY_IF_ENGAGED`
waffle switch), the grade store keyed by (user id, course key), and the grade
calculator.  All are external to the factory; the store and calculator are
modelled from the spec's `GradeStore` and `GradeCalculator` interfaces. -/
structure GradesEnv where
  assume_zero_if_absent : Nat → Bool
  should_persist_grades : Nat → Bool
  write_only_if_engaged : Bool
  store : Nat → Nat → Option PersistentCourseGradeRec
  calculator : Nat → CourseData → Except GradeError CourseGrade

namespace CourseGradeFactory

/-- `GradeResult`, the named tuple `(student, course_grade, error)` yielded by
`iter` (source line 22). -/
structure GradeResult where
  student : Nat
  course_grade : Option CourseGrade
  error : Option GradeError
  deriving DecidableEq, Repr

/-- Modelled from the spec: materialisation of a stored grade into a
`ResolvedGrade`, i.e. the constructor call
`CourseGrade(user, course_data, percent, letter, passed_timestamp is not None)`
in `_read` (source lines 155–161).  The spec does not determine the
`attempted` flag of a store-materialised grade and no claim depends on it; it
is set to `false` here. -/
def materialize (pg : PersistentCourseGradeRec) : CourseGrade :=
  { percent := pg.percent_grade
    letter_grade := pg.letter_grade
    passed := some pg.passed_timestamp.isSome
    attempted := false }

/-- Modelled from the spec: `ZeroGrade` (`ZeroCourseGrade` of
`course_grade.py`): percent 0, empty letter grade, passed false, attempted
false.  `_create_zero` (source lines 137–143) returns it. -/
def zeroGrade : CourseGrade :=
  { percent := 0, letter_grade := "", passed := some false, attempted := false }

/-- `CourseGradeFactory._read` (source lines 145–164): raises `DoesNotExist`
when persistence is disabled for the course, otherwise reads the stored row
(raising `DoesNotExist` on a miss) and returns the materialised grade together
with the stored grading-policy hash. -/
def _read (env : GradesEnv) (user_id : Nat) (course_data : CourseData) :
    Except ReadErr (CourseGrade × Nat) :=
  if ¬ env.should_persist_grades course_data.course_key then
    .error .doesNotExist
  else
    match env.store user_id course_data.course_key with
    | none => .error .doesNotExist
    | some pg => .ok (materialize pg, pg.grading_policy_hash)

/-- The keyword arguments `_update` passes to
`PersistentCourseGrade.update_or_create` (source lines 184–193), including
the Python `course_grade.letter_grade or ""` defaulting. -/
def upsert_args (user_id : Nat) (course_data : CourseData)
    (course_grade : CourseGrade) : UpsertArgs :=
  { user_id := user_id
    course_id := course_data.course_key
    course_version := course_data.version
    course_edited_timestamp := course_data.edited_on
    grading_policy_hash := course_data.grading_policy_hash
    percent_grade := course_grade.percent
    letter_grade :=
      if course_grade.letter_grade = "" then "" else course_grade.letter_grade
    passed := course_grade.passed }

/-- `CourseGradeFactory._update` (source lines 166–214): invokes the grade
calculator, persists when `(not read_only) and should_persist_grades and
(not WRITE_ONLY_IF_ENGAGED or attempted)`, always sends
`COURSE_GRADE_CHANGED` with the course deadline, and additionally sends
`COURSE_GRADE_NOW_PASSED` when `course_grade.passed is True`.  The
calculator's failure propagates.  The returned event list records the effects
in program order. -/
def _update (env : GradesEnv) (user_id : Nat) (course_data : CourseData)
    (read_only : Bool) : Except GradeError (CourseGrade × List Event) :=
  match env.calculator user_id course_data with
  | .error e => .error e
  | .ok course_grade =>
    let should_persist :=
      (¬ read_only) ∧
      env.should_persist_grades course_data.course_key = true ∧
      (env.write_only_if_engaged = false ∨ course_grade.attempted = true)
    let persistEvents : List Event :=
      if should_persist then
        [Event.storeUpsert (upsert_args user_id course_data course_grade)]
      else []
    let passedEvents : List Event :=
      if course_grade.passed = some true then [Event.nowPassed user_id] else []
    .ok (course_grade,
      Event.calcInvoked user_id :: persistEvents
        ++ [Event.gradeChanged user_id course_grade course_data.course_end]
        ++ passedEvents)

/-- `CourseGradeFactory._create_zero` (source lines 137–143). -/
def _create_zero : CourseGrade := zeroGrade

/-- `CourseGradeFactory.create` (source lines 24–46): read the stored grade;
on a hash match return it as-is; on a mismatch fall through to `_update` with
`read_only = False`; on `DoesNotExist` return the zero grade when
`assume_zero_if_absent`, otherwise fall through to `_update` with
`read_only = True`. -/
def create (env : GradesEnv) (user_id : Nat) (course_data : CourseData) :
    Except GradeError (CourseGrade × List Event) :=
  match _read env user_id course_data with
  | .ok (course_grade, read_policy_hash) =>
    if read_policy_hash = course_data.grading_policy_hash then
      .ok (course_grade, [])
    else
      _update env user_id course_data false
  | .error _ =>
    if env.assume_zero_if_absent course_data.course_key then
      .ok (_create_zero, [])
    else
      _update env user_id course_data true

/-- `CourseGradeFactory.read` (source lines 48–67): return the stored grade
without validating the policy hash; on `DoesNotExist` return the zero grade
when `assume_zero_if_absent`, else `none`.  Emits no events. -/
def read (env : GradesEnv) (user_id : Nat) (course_data : CourseData) :
    Option CourseGrade :=
  match _read env user_id course_data with
  | .ok (course_grade, _) => some course_grade
  | .error _ =>
    if env.assume_zero_if_absent course_data.course_key then
      some _create_zero
    else
      none

/-- `CourseGradeFactory.update` (source lines 69–78): unconditionally
`_update` with `read_only=False`. -/
def update (env : GradesEnv) (user_id : Nat) (course_data : CourseData) :
    Except GradeError (CourseGrade × List Event) :=
  _update env user_id course_data false

/-- The per-learner resolution performed inside `_iter_grade_result` (source
line 121–124): `update` when `force_update` else `create`. -/
def _iter_method (env : GradesEnv) (user_id : Nat) (course_data : CourseData)
    (force_update : Bool) : Except GradeError (CourseGrade × List Event) :=
  if force_update then update env user_id course_data
  else create env user_id course_data

/-- `CourseGradeFactory._iter_grade_result` (source lines 119–135): dispatch
to `update` or `create` according to `force_update`, and catch any exception,
converting it into an error `GradeResult` instead of aborting. -/
def _iter_grade_result (env : GradesEnv) (user_id : Nat)
    (course_data : CourseData) (force_update : Bool) : GradeResult :=
  match _iter_method env user_id course_data force_update with
  | .ok (course_grade, _) =>
    { student := user_id, course_grade := some course_grade, error := none }
  | .error exc =>
    { student := user_id, course_grade := none, error := some exc }

/-- The per-learner results of `iter` (source lines 114–117), in input
order: one `GradeResult` per user, produced by `_iter_grade_result`. -/
def iterResults (env : GradesEnv) (users : List Nat) (course_data : CourseData)
    (force_update : Bool) : List GradeResult :=
  users.map (fun user_id => _iter_grade_result env user_id course_data force_update)

/-- A generator whose yields are wrapped in a `contextmanager`-scoped block:
the list of values it would yield, the teardown effect the context manager
runs after its `yield`, and whether that `yield` is protected by
`try/finally`.  This models Python's semantics for
`@contextmanager` generators: code placed after the `yield` runs when control
returns normally, but when an exception — including the `GeneratorExit`
thrown on early termination or abandonment of the consuming generator — is
thrown in at the `yield`, it propagates immediately and the code after the
`yield` is skipped unless the `yield` sits inside `try/finally`. -/
structure ScopedGen (α : Type) where
  items : List α
  teardown : Event
  tryFinally : Bool
  deriving DecidableEq, Repr

/-- How the consumer drives the lazy sequence: either it consumes every
element and lets the generator finish normally, or consumption is interrupted
after `k` elements (the consumer breaks out, abandons the generator, or an
exception propagates through it). -/
inductive Consumption where
  | completed
  | interrupted (k : Nat)
  deriving DecidableEq, Repr

/-- Consuming a scoped generator: the elements actually received and the
teardown events that run.  On normal completion the code after the context
manager's `yield` executes; on interruption it executes only under
`try/finally`. -/
def ScopedGen.consume {α : Type} (g : ScopedGen α) :
    Consumption → List α × List Event
  | .completed => (g.items, [g.teardown])
  | .interrupted k => (g.items.take k, if g.tryFinally then [g.teardown] else [])

/-- `CourseGradeFactory._course_transaction` (source lines 80–86): its body is
a bare `yield` followed by `VisibleBlocks.clear_cache(course_key)`, with no
`try/finally` around the `yield`. -/
def _course_transaction_has_finally : Bool := false

/-- `CourseGradeFactory.iter` (source lines 88–117) as a scoped generator:
the per-learner results yielded inside the `_course_transaction` context
manager, whose teardown is `VisibleBlocks.clear_cache(course_key)`. -/
def iterGen (env : GradesEnv) (users : List Nat) (course_data : CourseData)
    (force_update : Bool) : ScopedGen GradeResult :=
  { items := iterResults env users course_data force_update
    teardown := Event.clearCache course_data.course_key
    tryFinally := _course_transaction_has_finally }

/-- Two `update` calls in direct succession against the same (unchanged)
collaborators, pairing up their results; the second call runs only if the
first succeeded, exactly as sequential Python calls would. -/
def updateTwice (env : GradesEnv) (user_id : Nat) (course_data : CourseData) :
    Except GradeError ((CourseGrade × List Event) × (CourseGrade × List Event)) := do
  let r1 ← update env user_id course_data
  let r2 ← update env user_id course_data
  return (r1, r2)

end CourseGradeFactory

/-- Number of store writes (`PersistentCourseGrade.update_or_create` calls)
recorded in an event list. -/
def upsertCount (events : List Event) : Nat :=
  (events.filter fun e =>
    match e with
    | .storeUpsert _ => true
    | _ => false).length

/-- A sample course context: course key 1, policy hash 10, deadline 99. -/
def sampleCD : CourseData :=
  { course_key := 1, version := 2, edited_on := 3, grading_policy_hash := 10,
    course_end := some 99 }

/-- A sample stored grade whose policy hash matches `sampleCD`. -/
def samplePG : PersistentCourseGradeRec :=
  { percent_grade := 80, letter_grade := "B", passed_timestamp := some 5,
    grading_policy_hash := 10 }

/-- A sample stored grade whose policy hash (4) is stale w.r.t. `sampleCD`. -/
def stalePG : PersistentCourseGradeRec :=
  { percent_grade := 60, letter_grade := "C", passed_timestamp := none,
    grading_policy_hash := 4 }

/-- A sample freshly computed grade: passing and attempted. -/
def sampleGrade : CourseGrade :=
  { percent := 90, letter_grade := "A", passed := some true, attempted := true }

/-- A sample freshly computed grade for a learner who never attempted graded
work. -/
def unattemptedGrade : CourseGrade :=
  { percent := 0, letter_grade := "", passed := some false, attempted := false }

/-- Environment whose store always holds `samplePG` (hash matching
`sampleCD`), with persistence enabled and the engagement gate off; the
calculator fails for user 13 and returns `sampleGrade` otherwise. -/
def envHit : GradesEnv :=
  { assume_zero_if_absent := fun _ => false
    should_persist_grades := fun _ => true
    write_only_if_engaged := false
    store := fun _ _ => some samplePG
    calculator := fun user_id _ =>
      if user_id = 13 then .error { msg := "boom" } else .ok sampleGrade }

/-- Environment whose store holds the stale `stalePG`, with persistence
enabled and the engagement gate off. -/
def envStale : GradesEnv :=
  { assume_zero_if_absent := fun _ => false
    should_persist_grades := fun _ => true
    write_only_if_engaged := false
    store := fun _ _ => some stalePG
    calculator := fun _ _ => .ok sampleGrade }

/-- Environment with an empty store, assume-zero disabled, persistence
enabled, engagement gate off; the calculator fails for user 13 and returns
`sampleGrade` otherwise. -/
def envMiss : GradesEnv :=
  { assume_zero_if_absent := fun _ => false
    should_persist_grades := fun _ => true
    write_only_if_engaged := false
    store := fun _ _ => none
    calculator := fun user_id _ =>
      if user_id = 13 then .error { msg := "boom" } else .ok sampleGrade }

/-- Environment with an empty store and assume-zero enabled. -/
def envZero : GradesEnv :=
  { assume_zero_if_absent := fun _ => true
    should_persist_grades := fun _ => true
    write_only_if_engaged := false
    store := fun _ _ => none
    calculator := fun _ _ => .ok sampleGrade }

/-- Environment with a stale stored grade, persistence enabled, the
engagement gate ON, and a calculator that resolves an unattempted grade. -/
def envGate : GradesEnv :=
  { assume_zero_if_absent := fun _ => false
    should_persist_grades := fun _ => true
    write_only_if_engaged := true
    store := fun _ _ => some stalePG
    calculator := fun _ _ => .ok unattemptedGrade }

/-- Environment where persistence is disabled for every course although the
store does hold `samplePG` with a matching policy hash. -/
def envNoPersist : GradesEnv :=
  { assume_zero_if_absent := fun _ => false
    should_persist_grades := fun _ => false
    write_only_if_engaged := false
    store := fun _ _ => some samplePG
    calculator := fun _ _ => .ok sampleGrade }

namespace CourseGradeFactory

/-- Helper: the exact result of `_update` when the grade calculator
succeeds. -/
theorem update_spec (env : GradesEnv) (user_id : Nat) (course_data : CourseData)
    (read_only : Bool) (g : CourseGrade)
    (hcalc : env.calculator user_id course_data = .ok g) :
    _update env user_id course_data read_only =
      .ok (g,
        Event.calcInvoked user_id ::
          (if (¬ read_only) ∧
              env.should_persist_grades course_data.course_key = true ∧
              (env.write_only_if_engaged = false ∨ g.attempted = true) then
            [Event.storeUpsert (upsert_args user_id course_data g)]
          else [])
          ++ [Event.gradeChanged user_id g course_data.course_end]
          ++ (if g.passed = some true then [Event.nowPassed user_id] else [])) := by
  unfold _update
  rw [hcalc]

/-- C1: when the store holds a grade for the user whose grading-policy hash
equals the context's current hash (which presupposes a successful store read,
i.e. persistence enabled for the course — claim C10 covers the disabled
case), `create` returns the materialised stored grade with an empty event
list: no calculator invocation, no store write, no notification. -/
theorem create_fast_path_returns_stored_grade (env : GradesEnv) (user_id : Nat)
    (course_data : CourseData) (pg : PersistentCourseGradeRec)
    (hp : env.should_persist_grades course_data.course_key = true)
    (hs : env.store user_id course_data.course_key = some pg)
    (hh : pg.grading_policy_hash = course_data.grading_policy_hash) :
    create env user_id course_data = .ok (materialize pg, []) := by
  unfold create _read
  simp [hp, hs, hh]

/-- Witness for C1 at `envHit`, user 7, `sampleCD`. -/
theorem create_fast_path_returns_stored_grade_witness :
    envHit.should_persist_grades sampleCD.course_key = true ∧
    envHit.store 7 sampleCD.course_key = some samplePG ∧
    samplePG.grading_policy_hash = sampleCD.grading_policy_hash ∧
    create envHit 7 sampleCD = .ok (materialize samplePG, []) :=
  ⟨rfl, rfl, rfl,
    create_fast_path_returns_stored_grade envHit 7 sampleCD samplePG rfl rfl rfl⟩

/-- C7: when the store has no entry for the user and assume-zero-if-absent is
enabled, `create` and `read` both return the zero grade (percent 0, passed
false, attempted false) and emit no events at all — in particular no store
write. -/
theorem create_read_zero_grade_when_absent (env : GradesEnv) (user_id : Nat)
    (course_data : CourseData)
    (hs : env.store user_id course_data.course_key = none)
    (hz : env.assume_zero_if_absent course_data.course_key = true) :
    create env user_id course_data = .ok (zeroGrade, []) ∧
    read env user_id course_data = some zeroGrade ∧
    zeroGrade.percent = 0 ∧ zeroGrade.passed = some false ∧
    zeroGrade.attempted = false := by
  by_cases hp : env.should_persist_grades course_data.course_key = true <;>
    simp [create, read, _read, _create_zero, hs, hz, hp, zeroGrade]

/-- Witness for C7 at `envZero`, user 7, `sampleCD`. -/
theorem create_read_zero_grade_when_absent_witness :
    envZero.store 7 sampleCD.course_key = none ∧
    envZero.assume_zero_if_absent sampleCD.course_key = true ∧
    (create envZero 7 sampleCD = .ok (zeroGrade, []) ∧
     read envZero 7 sampleCD = some zeroGrade ∧
     zeroGrade.percent = 0 ∧ zeroGrade.passed = some false ∧
     zeroGrade.attempted = false) :=
  ⟨rfl, rfl, create_read_zero_grade_when_absent envZero 7 sampleCD rfl rfl⟩

/-- C10: when persistence is disabled for the course, `_read` raises
`DoesNotExist` no matter what the store holds, so `create` never takes the
fast path (it returns the zero grade or recomputes through `_update` with
`read_only = true`) and `read` never returns a stored grade. -/
theorem persistence_disabled_never_reads_store (env : GradesEnv)
    (user_id : Nat) (course_data : CourseData)
    (hp : env.should_persist_grades course_data.course_key = false) :
    _read env user_id course_data = .error .doesNotExist ∧
    create env user_id course_data =
      (if env.assume_zero_if_absent course_data.course_key then
        .ok (zeroGrade, [])
      else _update env user_id course_data true) ∧
    read env user_id course_data =
      (if env.assume_zero_if_absent course_data.course_key then some zeroGrade
      else none) := by
  simp [create, read, _read, _create_zero, hp]

/-- Witness for C10 at `envNoPersist` (store holds a matching grade, yet the
disabled persistence flag forces the recompute path), user 7, `sampleCD`. -/
theorem persistence_disabled_never_reads_store_witness :
    envNoPersist.should_persist_grades sampleCD.course_key = false ∧
    (_read envNoPersist 7 sampleCD = .error .doesNotExist ∧
     create envNoPersist 7 sampleCD =
       (if envNoPersist.assume_zero_if_absent sampleCD.course_key then
         .ok (zeroGrade, [])
       else _update envNoPersist 7 sampleCD true) ∧
     read envNoPersist 7 sampleCD =
       (if envNoPersist.assume_zero_if_absent sampleCD.course_key then
         some zeroGrade
       else none)) :=
  ⟨rfl, persistence_disabled_never_reads_store envNoPersist 7 sampleCD rfl⟩

end CourseGradeFactory

namespace CourseGradeFactory

/-- C2: when the stored grade's policy hash differs from the context's
current hash, `create` recomputes through `_update` with `read_only = false`,
and — persistence being enabled (it must be, for the read to have succeeded)
and the engagement gate passing — the events include a store upsert whose
grading-policy hash is the context's current hash. -/
theorem create_stale_recomputes_and_upserts (env : GradesEnv) (user_id : Nat)
    (course_data : CourseData) (pg : PersistentCourseGradeRec) (g : CourseGrade)
    (hp : env.should_persist_grades course_data.course_key = true)
    (hs : env.store user_id course_data.course_key = some pg)
    (hh : pg.grading_policy_hash ≠ course_data.grading_policy_hash)
    (hcalc : env.calculator user_id course_data = .ok g)
    (hgate : env.write_only_if_engaged = false ∨ g.attempted = true) :
    create env user_id course_data = _update env user_id course_data false ∧
    ∃ evs, create env user_id course_data = .ok (g, evs) ∧
      Event.calcInvoked user_id ∈ evs ∧
      Event.storeUpsert (upsert_args user_id course_data g) ∈ evs ∧
      (upsert_args user_id course_data g).grading_policy_hash =
        course_data.grading_policy_hash := by
  have h1 : create env user_id course_data = _update env user_id course_data false := by
    unfold create _read
    simp [hp, hs, hh]
  refine ⟨h1, ?_⟩
  rw [h1, update_spec env user_id course_data false g hcalc]
  rw [if_pos ⟨by simp, hp, hgate⟩]
  exact ⟨_, rfl, by simp, by simp, rfl⟩

/-- Witness for C2 at `envStale` (stored hash 4, current hash 10), user 7. -/
theorem create_stale_recomputes_and_upserts_witness :
    stalePG.grading_policy_hash ≠ sampleCD.grading_policy_hash ∧
    (create envStale 7 sampleCD = _update envStale 7 sampleCD false ∧
     ∃ evs, create envStale 7 sampleCD = .ok (sampleGrade, evs) ∧
       Event.calcInvoked 7 ∈ evs ∧
       Event.storeUpsert (upsert_args 7 sampleCD sampleGrade) ∈ evs ∧
       (upsert_args 7 sampleCD sampleGrade).grading_policy_hash =
         sampleCD.grading_policy_hash) :=
  ⟨by decide,
    create_stale_recomputes_and_upserts envStale 7 sampleCD stalePG sampleGrade
      rfl rfl (by decide) rfl (Or.inl rfl)⟩

/-- C3 counterexample: a stale-policy recomputation is NOT always persisted.
At `envGate` the stored hash (4) differs from the current hash (10), yet the
engagement gate is enabled and the recomputed grade is unattempted, so
`create` recomputes without any store upsert. -/
theorem create_stale_not_persisted_gate_cex :
    envGate.store 7 sampleCD.course_key = some stalePG ∧
    stalePG.grading_policy_hash ≠ sampleCD.grading_policy_hash ∧
    create envGate 7 sampleCD =
      .ok (unattemptedGrade,
        [Event.calcInvoked 7,
         Event.gradeChanged 7 unattemptedGrade (some 99)]) ∧
    upsertCount
      [Event.calcInvoked 7, Event.gradeChanged 7 unattemptedGrade (some 99)]
      = 0 :=
  ⟨rfl, by decide, rfl, rfl⟩

/-- C3 as amended: a store miss with assume-zero disabled recomputes with
`read_only = true`, so no upsert ever reaches the store, whereas a
stale-policy recomputation (stored grade with mismatched hash) is persisted
provided the engagement gate is disabled or the grade is attempted. -/
theorem create_read_only_asymmetry (env : GradesEnv) (user_id : Nat)
    (course_data : CourseData) (g : CourseGrade) (pg : PersistentCourseGradeRec)
    (hcalc : env.calculator user_id course_data = .ok g) :
    (env.store user_id course_data.course_key = none →
      env.assume_zero_if_absent course_data.course_key = false →
      ∃ evs, create env user_id course_data = .ok (g, evs) ∧
        Event.calcInvoked user_id ∈ evs ∧ upsertCount evs = 0) ∧
    (env.store user_id course_data.course_key = some pg →
      pg.grading_policy_hash ≠ course_data.grading_policy_hash →
      env.should_persist_grades course_data.course_key = true →
      (env.write_only_if_engaged = false ∨ g.attempted = true) →
      ∃ evs, create env user_id course_data = .ok (g, evs) ∧
        upsertCount evs = 1) := by
  constructor
  · intro hs hz
    have h1 : create env user_id course_data = _update env user_id course_data true := by
      by_cases hp : env.should_persist_grades course_data.course_key = true <;>
        simp [create, _read, hs, hz, hp]
    rw [h1, update_spec env user_id course_data true g hcalc]
    rw [if_neg (by simp)]
    refine ⟨_, rfl, by simp, ?_⟩
    by_cases hpass : g.passed = some true <;>
      simp [hpass, upsertCount, List.filter]
  · intro hs hh hp hgate
    have h1 : create env user_id course_data = _update env user_id course_data false := by
      unfold create _read
      simp [hp, hs, hh]
    rw [h1, update_spec env user_id course_data false g hcalc]
    rw [if_pos ⟨by simp, hp, hgate⟩]
    refine ⟨_, rfl, ?_⟩
    by_cases hpass : g.passed = some true <;>
      simp [hpass, upsertCount, List.filter, upsert_args]

/-- Witness for the amended C3 at `envMiss` (empty store, assume-zero off),
user 7. -/
theorem create_read_only_asymmetry_witness :
    (envMiss.store 7 sampleCD.course_key = none →
      envMiss.assume_zero_if_absent sampleCD.course_key = false →
      ∃ evs, create envMiss 7 sampleCD = .ok (sampleGrade, evs) ∧
        Event.calcInvoked 7 ∈ evs ∧ upsertCount evs = 0) ∧
    (envMiss.store 7 sampleCD.course_key = some stalePG →
      stalePG.grading_policy_hash ≠ sampleCD.grading_policy_hash →
      envMiss.should_persist_grades sampleCD.course_key = true →
      (envMiss.write_only_if_engaged = false ∨ sampleGrade.attempted = true) →
      ∃ evs, create envMiss 7 sampleCD = .ok (sampleGrade, evs) ∧
        upsertCount evs = 1) :=
  create_read_only_asymmetry envMiss 7 sampleCD sampleGrade stalePG rfl

end CourseGradeFactory

namespace CourseGradeFactory

/-- C4 counterexample: `_course_transaction` has no `try/finally` around its
`yield`, so when consumption of `iter` is interrupted after the first of two
results (early stop, abandonment, or a propagating exception), the
`clear_cache` teardown never runs: zero `clearCache` events, not one. -/
theorem iter_teardown_skipped_on_interrupt_cex :
    ((iterGen envZero [7, 8] sampleCD false).consume
        (Consumption.interrupted 1)).1.length = 1 ∧
    ((iterGen envZero [7, 8] sampleCD false).consume
        (Consumption.interrupted 1)).2.count
      (Event.clearCache sampleCD.course_key) = 0 :=
  ⟨rfl, rfl⟩

/-- C4 as amended: the course-scoped `clear_cache` teardown executes exactly
once when the lazy sequence is consumed to completion, but not at all when the
consumer stops early, abandons the sequence, or an exception propagates
through consumption (the context manager's `yield` is not wrapped in
`try/finally`). -/
theorem iter_teardown_only_on_completion (env : GradesEnv) (users : List Nat)
    (course_data : CourseData) (force_update : Bool) :
    ((iterGen env users course_data force_update).consume
        Consumption.completed).2.count
      (Event.clearCache course_data.course_key) = 1 ∧
    ∀ k, ((iterGen env users course_data force_update).consume
        (Consumption.interrupted k)).2.count
      (Event.clearCache course_data.course_key) = 0 := by
  constructor
  · simp [iterGen, ScopedGen.consume]
  · intro k
    simp [iterGen, ScopedGen.consume, _course_transaction_has_finally]

/-- C5: `iter` yields one result per user in input order (`iterResults` has
the input's length and its `k`-th element is the per-learner result for the
`k`-th user, a function of that user alone); when the per-learner resolution
fails, position `k` carries the error with a null grade, and when it
succeeds, position `k` carries the grade with a null error — other positions
are untouched either way. -/
theorem iter_results_order_and_isolation (env : GradesEnv) (users : List Nat)
    (course_data : CourseData) (force_update : Bool) (k : Nat)
    (hk : k < users.length) :
    (iterResults env users course_data force_update).length = users.length ∧
    (iterResults env users course_data force_update)[k]? =
      some (_iter_grade_result env users[k] course_data force_update) ∧
    (∀ exc, _iter_method env users[k] course_data force_update = .error exc →
      _iter_grade_result env users[k] course_data force_update =
        { student := users[k], course_grade := none, error := some exc }) ∧
    (∀ g evs,
      _iter_method env users[k] course_data force_update = .ok (g, evs) →
      _iter_grade_result env users[k] course_data force_update =
        { student := users[k], course_grade := some g, error := none }) := by
  refine ⟨by simp [iterResults], ?_, ?_, ?_⟩
  · simp [iterResults, List.getElem?_eq_getElem, hk]
  · intro exc h
    simp [_iter_grade_result, h]
  · intro g evs h
    simp [_iter_grade_result, h]

/-- Witness for C5 at `envMiss` with users `[7, 13, 8]`: the calculator fails
for user 13 (position 1), whose result is the error result, while position 0
(user 7) resolves a valid grade. -/
theorem iter_results_order_and_isolation_witness :
    (iterResults envMiss [7, 13, 8] sampleCD false).length = 3 ∧
    (iterResults envMiss [7, 13, 8] sampleCD false)[1]? =
      some (_iter_grade_result envMiss 13 sampleCD false) ∧
    _iter_grade_result envMiss 13 sampleCD false =
      { student := 13, course_grade := none, error := some { msg := "boom" } } ∧
    _iter_grade_result envMiss 7 sampleCD false =
      { student := 7, course_grade := some sampleGrade, error := none } := by
  have h1 := iter_results_order_and_isolation envMiss [7, 13, 8] sampleCD false 1
    (by decide)
  have h0 := iter_results_order_and_isolation envMiss [7, 13, 8] sampleCD false 0
    (by decide)
  exact ⟨h1.1, h1.2.1, h1.2.2.1 { msg := "boom" } rfl,
    h0.2.2.2 sampleGrade
      [Event.calcInvoked 7, Event.gradeChanged 7 sampleGrade (some 99),
       Event.nowPassed 7] rfl⟩

end CourseGradeFactory

namespace CourseGradeFactory

/-- C6: every recomputation (`_update`, reached from `create` on a miss or a
stale hash and from every `update` call, for any `read_only`) emits the
grade-changed notification with the resolved grade and the course deadline
exactly once, and emits the grade-newly-passed notification if and only if
the resolved grade's `passed` is exactly `true`. -/
theorem update_notifies_changed_and_passed (env : GradesEnv) (user_id : Nat)
    (course_data : CourseData) (read_only : Bool) (g : CourseGrade)
    (hcalc : env.calculator user_id course_data = .ok g) :
    ∃ evs, _update env user_id course_data read_only = .ok (g, evs) ∧
      evs.count (Event.gradeChanged user_id g course_data.course_end) = 1 ∧
      ((Event.nowPassed user_id ∈ evs) ↔ g.passed = some true) := by
  rw [update_spec env user_id course_data read_only g hcalc]
  refine ⟨_, rfl, ?_, ?_⟩ <;>
    split_ifs <;> simp_all [List.count_cons, List.count_append]

/-- Witness for C6 at `envMiss`, user 7, `read_only = true`; `sampleGrade`
has `passed = some true`, so both notifications appear. -/
theorem update_notifies_changed_and_passed_witness :
    ∃ evs, _update envMiss 7 sampleCD true = .ok (sampleGrade, evs) ∧
      evs.count (Event.gradeChanged 7 sampleGrade sampleCD.course_end) = 1 ∧
      ((Event.nowPassed 7 ∈ evs) ↔ sampleGrade.passed = some true) :=
  update_notifies_changed_and_passed envMiss 7 sampleCD true sampleGrade rfl

/-- C8: `update` recomputes even though the store holds a grade whose policy
hash matches the context's (the calculator is invoked), and two sequential
`update` calls with unchanged collaborators return equal grades and equal
event lists, each containing exactly one store upsert — two upserts in
total. -/
theorem update_twice_recomputes_and_upserts (env : GradesEnv) (user_id : Nat)
    (course_data : CourseData) (pg : PersistentCourseGradeRec) (g : CourseGrade)
    (hs : env.store user_id course_data.course_key = some pg)
    (hh : pg.grading_policy_hash = course_data.grading_policy_hash)
    (hcalc : env.calculator user_id course_data = .ok g)
    (hp : env.should_persist_grades course_data.course_key = true)
    (hgate : env.write_only_if_engaged = false ∨ g.attempted = true) :
    ∃ evs, updateTwice env user_id course_data = .ok ((g, evs), (g, evs)) ∧
      Event.calcInvoked user_id ∈ evs ∧
      upsertCount evs = 1 ∧
      upsertCount (evs ++ evs) = 2 := by
  have h1 : update env user_id course_data =
      _update env user_id course_data false := rfl
  have h2 := update_spec env user_id course_data false g hcalc
  rw [if_pos ⟨by simp, hp, hgate⟩] at h2
  refine ⟨[Event.calcInvoked user_id,
      Event.storeUpsert (upsert_args user_id course_data g)]
      ++ [Event.gradeChanged user_id g course_data.course_end]
      ++ (if g.passed = some true then [Event.nowPassed user_id] else []),
    ?_, by simp, ?_, ?_⟩
  · simp only [updateTwice, update, h2]
    rfl
  · by_cases hpass : g.passed = some true <;>
      simp [hpass, upsertCount, List.filter, upsert_args]
  · by_cases hpass : g.passed = some true <;>
      simp [hpass, upsertCount, List.filter, upsert_args]

/-- Witness for C8 at `envHit` (store holds `samplePG` whose hash matches
`sampleCD`), user 7. -/
theorem update_twice_recomputes_and_upserts_witness :
    samplePG.grading_policy_hash = sampleCD.grading_policy_hash ∧
    ∃ evs, updateTwice envHit 7 sampleCD = .ok ((sampleGrade, evs), (sampleGrade, evs)) ∧
      Event.calcInvoked 7 ∈ evs ∧
      upsertCount evs = 1 ∧
      upsertCount (evs ++ evs) = 2 :=
  ⟨rfl,
    update_twice_recomputes_and_upserts envHit 7 sampleCD samplePG sampleGrade
      rfl rfl rfl rfl (Or.inl rfl)⟩

/-- C9: every result yielded by `iter` has exactly one of its grade and error
fields non-null: a success carries a grade and a null error, a failure
carries a null grade and an error. -/
theorem grade_result_exactly_one_non_null (env : GradesEnv) (users : List Nat)
    (course_data : CourseData) (force_update : Bool) (r : GradeResult)
    (hr : r ∈ iterResults env users course_data force_update) :
    (∃ g, r.course_grade = some g ∧ r.error = none) ∨
    (∃ exc, r.course_grade = none ∧ r.error = some exc) := by
  rcases List.mem_map.mp hr with ⟨u, hu, rfl⟩
  cases h : _iter_method env u course_data force_update with
  | ok p => exact Or.inl ⟨p.1, by simp [_iter_grade_result, h]⟩
  | error exc => exact Or.inr ⟨exc, by simp [_iter_grade_result, h]⟩

/-- Witness for C9: the result for the sole user 7 at `envMiss`. -/
theorem grade_result_exactly_one_non_null_witness :
    ({ student := 7, course_grade := some sampleGrade, error := none } :
        GradeResult) ∈ iterResults envMiss [7] sampleCD false ∧
    ((∃ g, ({ student := 7, course_grade := some sampleGrade, error := none } :
        GradeResult).course_grade = some g ∧
        ({ student := 7, course_grade := some sampleGrade, error := none } :
          GradeResult).error = none) ∨
      (∃ exc, ({ student := 7, course_grade := some sampleGrade, error := none } :
        GradeResult).course_grade = none ∧
        ({ student := 7, course_grade := some sampleGrade, error := none } :
          GradeResult).error = some exc)) :=
  ⟨by decide,
    grade_result_exactly_one_non_null envMiss [7] sampleCD false _ (by decide)⟩

end CourseGradeFactory
